import Mathlib

/-!
Verification of the jupytercon2017-holoviews-tutorial notebooks.

The repository consists of two Jupyter notebooks
(05-working-with-tabular-data.ipynb, 09-working-with-large-datasets.ipynb)
whose code cells are linear sequences of Python statements calling external
libraries (pandas, dask, holoviews, datashader, geoviews, bokeh).

Part 1 gives a deep embedding of the notebooks' code-cell statements as an
AST (`Expr`, `Stmt`), with the two notebooks transcribed statement by
statement (`nb05`, `nb09`).  Syntactic claims (pass-through structure,
absence of try/except, scoping and linearity, absence of concurrency
primitives) become decidable predicates over the transcription, and an
evaluator parametrised by an oracle for the external libraries settles the
error-propagation claim.

Part 2 models the HoloViews data structures the notebooks drive (dimensioned
datasets, elements, aggregation, conversion, relabelling) to settle the
semantic claims; those definitions are modelled from the spec because the
HoloViews/dask sources are not part of this repository.
-/

/-! ## Part 1: the notebooks' statements -/

/-- A Python expression as it occurs in the notebooks' code cells.
Python list displays `[a, b]` are encoded as `econs a (econs b enil)`
chains; a call's arguments are likewise an `enil`/`econs` chain. -/
inductive Expr where
  | slit (s : String)
  | nlit (n : Int)
  | pynone
  | pybool (b : Bool)
  | name (x : String)
  | enil
  | econs (e rest : Expr)
  | tup2 (a b : Expr)
  | kw (k : String) (e : Expr)
  | call (f a : Expr)
  | attr (e : Expr) (a : String)
  | binop (op : String) (l r : Expr)
  | lambdaE (params : List String) (body : Expr)
deriving DecidableEq

/-- A statement of a notebook code cell.  Constructors exist for the
statement forms Python offers (function/class definitions, loops,
conditionals, try/except) so that their absence from the transcription is a
real check, not a vacuous one. -/
inductive Stmt where
  | importLib (modName asName : String)
  | importFrom (modName : String) (names : List String)
  | assign (x : String) (e : Expr)
  | attrAssign (x a : String) (e : Expr)
  | exprStmt (e : Expr)
  | magic (s : String)
  | defFun (fname : String)
  | defClass (cname : String)
  | forLoop
  | whileLoop
  | ifStmt
  | tryExcept
deriving DecidableEq

/-- Build an argument chain from a Lean list of expressions. -/
def listE : List Expr → Expr
  | [] => Expr.enil
  | e :: es => Expr.econs e (listE es)

/-- Plain function call `f(a1, ..., an)`. -/
def fcall (f : Expr) (as_ : List Expr) : Expr :=
  Expr.call f (listE as_)

/-- Method call `recv.m(a1, ..., an)`. -/
def mcall (recv : Expr) (m : String) (as_ : List Expr) : Expr :=
  Expr.call (Expr.attr recv m) (listE as_)

/-- The code cells of 05-working-with-tabular-data.ipynb, statement by
statement in textual order. -/
def nb05 : List Stmt := [
  .importLib "numpy" "np",
  .importLib "scipy.stats" "ss",
  .importLib "pandas" "pd",
  .importLib "holoviews" "hv",
  .exprStmt (mcall (.name "hv") "extension" [.slit "bokeh"]),
  .magic "opts Curve Scatter [tools=['hover']]",
  .assign "macro_df" (mcall (.name "pd") "read_csv" [.slit "../data/macro.csv"]),
  .exprStmt (mcall (.name "macro_df") "head" []),
  .assign "macro" (mcall (.name "hv") "Dataset"
    [.name "macro_df", .kw "kdims" (listE [.slit "country", .slit "year"])]),
  .exprStmt (.name "macro"),
  .assign "macro" (Expr.call (.attr (.attr (.name "macro") "redim") "label") (listE
    [.kw "growth" (.slit "GDP Growth"), .kw "unem" (.slit "Unemployment"),
     .kw "year" (.slit "Year"), .kw "country" (.slit "Country")])),
  .assign "curves" (mcall (.name "macro") "to"
    [.attr (.name "hv") "Curve", .kw "kdims" (.slit "year"),
     .kw "vdims" (.slit "unem"), .kw "groupby" (.slit "country")]),
  .exprStmt (fcall (.name "print") [.name "curves"]),
  .exprStmt (.name "curves"),
  .magic "opts Bars [width=600 xrotation=45]",
  .assign "bars" (mcall (mcall (.name "macro") "sort" [.slit "country"]) "to"
    [.attr (.name "hv") "Bars", .kw "kdims" (.slit "country"), .kw "vdims" (.slit "unem")]),
  .exprStmt (.name "bars"),
  .magic "opts BoxWhisker [width=800 xrotation=30] (box_fill_color=Palette('Category20'))",
  .exprStmt (mcall (.name "macro") "to"
    [.attr (.name "hv") "BoxWhisker", .slit "country", .slit "growth", .kw "groupby" Expr.enil]),
  .exprStmt (mcall (.name "hv") "BoxWhisker"
    [.name "macro", .kw "kdims" (listE [.slit "country"]),
     .kw "vdims" (listE [.slit "growth"])]),
  .magic "opts Scatter [width=800 height=400 size_index='growth'] (color=Palette('Category20') size=5)",
  .magic "opts NdOverlay [legend_position='left']",
  .exprStmt (mcall (mcall (mcall (.name "macro") "to"
      [.attr (.name "hv") "Scatter", .slit "year", listE [.slit "unem", .slit "growth"]])
    "overlay" []) "relabel" [.slit "OECD Unemployment 1960 - 1990"]),
  .magic "opts Curve [width=600]",
  .assign "agg" (mcall (.name "macro") "aggregate"
    [.slit "year", .kw "function" (.attr (.name "np") "mean"),
     .kw "spreadfn" (.attr (.name "np") "std")]),
  .exprStmt (.binop "*" (mcall (.name "hv") "Curve" [.name "agg"])
    (mcall (.name "hv") "ErrorBars"
      [.name "agg", .kw "kdims" (listE [.slit "year"]),
       .kw "vdims" (listE [.slit "growth", .slit "growth_std"])])),
  .magic "opts Bars [width=600 xrotation=45]",
  .assign "agg" (mcall (.name "macro") "aggregate"
    [.slit "country", .kw "function" (.attr (.name "np") "mean"),
     .kw "spreadfn" (.attr (.name "ss") "sem")]),
  .exprStmt (mcall (.name "hv") "Bars" [.name "agg"])]

/-- The code cells of 09-working-with-large-datasets.ipynb, statement by
statement in textual order. -/
def nb09 : List Stmt := [
  .importLib "pandas" "pd",
  .importLib "holoviews" "hv",
  .importLib "dask.dataframe" "dd",
  .importLib "datashader" "ds",
  .importLib "geoviews" "gv",
  .importFrom "holoviews.operation.datashader" ["datashade", "aggregate"],
  .exprStmt (mcall (.name "hv") "extension" [.slit "bokeh"]),
  .assign "ddf" (mcall (mcall (.name "dd") "read_parquet"
    [.slit "../data/nyc_taxi_hours.parq/"]) "persist" []),
  .exprStmt (fcall (.name "print")
    [.binop "%" (.slit "%s Rows") (fcall (.name "len") [.name "ddf"])]),
  .exprStmt (fcall (.name "print")
    [.slit "Columns:", fcall (.name "list") [.attr (.name "ddf") "columns"]]),
  .assign "points" (mcall (.name "hv") "Points"
    [.name "ddf", .kw "kdims" (listE [.slit "dropoff_x", .slit "dropoff_y"])]),
  .magic "opts RGB [width=600 height=500 bgcolor=\"black\"]",
  .exprStmt (fcall (.name "datashade") [.name "points"]),
  .exprStmt (.attr (.name "datashade") "streams"),
  .importFrom "datashader.colors" ["inferno"],
  .magic "opts RGB [xaxis=None yaxis=None]",
  .importLib "geoviews" "gv",
  .importFrom "bokeh.models" ["WMTSTileSource"],
  .assign "url" (.slit "https://server.arcgisonline.com/ArcGIS/rest/services/World_Imagery/MapServer/tile/{Z}/{Y}/{X}.jpg"),
  .assign "wmts" (fcall (.name "WMTSTileSource") [.kw "url" (.name "url")]),
  .exprStmt (.binop "*" (mcall (.name "gv") "WMTS" [.name "wmts"])
    (fcall (.name "datashade") [.name "points"])),
  .assign "wiki_url" (.slit "https://maps.wikimedia.org/osm-intl/{Z}/{X}/{Y}@2x.png"),
  .assign "selected" (mcall (.name "points") "select"
    [.kw "fare_amount" (.tup2 .pynone (.nlit 1000))]),
  .attrAssign "selected" "data" (mcall (.attr (.name "selected") "data") "persist" []),
  .exprStmt (.binop "*" (mcall (.name "gv") "WMTS" [.name "wmts"])
    (fcall (.name "datashade")
      [.name "selected", .kw "aggregator" (mcall (.name "ds") "mean" [.slit "fare_amount"])])),
  .magic "opts Image [width=600 height=500 logz=True xaxis=None yaxis=None]",
  .assign "taxi_ds" (mcall (.name "hv") "Dataset" [.name "ddf"]),
  .assign "grouped" (mcall (.name "taxi_ds") "to"
    [.attr (.name "hv") "Points", listE [.slit "dropoff_x", .slit "dropoff_y"],
     .kw "groupby" (listE [.slit "dropoff_hour"]), .kw "dynamic" (.pybool true)]),
  .exprStmt (Expr.call
    (.attr (.attr (fcall (.name "aggregate") [.name "grouped"]) "redim") "values")
    (listE [.kw "dropoff_hour" (fcall (.name "range") [.nlit 24])])),
  .magic "opts QuadMesh [width=800 height=400 tools=['hover']] (alpha=0 hover_line_alpha=1 hover_fill_alpha=0)",
  .assign "hover_info" (mcall (fcall (.name "aggregate")
      [.name "points", .kw "width" (.nlit 40), .kw "height" (.nlit 20),
       .kw "streams" (listE [.attr (.attr (.name "hv") "streams") "RangeXY"])])
    "map" [.attr (.name "hv") "QuadMesh", .attr (.name "hv") "Image"]),
  .exprStmt (.binop "*" (.binop "*" (mcall (.name "gv") "WMTS" [.name "wmts"])
    (fcall (.name "datashade") [.name "points"])) (.name "hover_info"))]

/-! ## Syntactic predicates over the transcription -/

/-- A statement that introduces control flow or a definition original to the
repository: function/class definitions, loops, conditionals, try/except. -/
def Stmt.isOrigControl : Stmt → Bool
  | .defFun _ | .defClass _ | .forLoop | .whileLoop | .ifStmt | .tryExcept => true
  | _ => false

/-- A try/except statement. -/
def Stmt.isTryExcept : Stmt → Bool
  | .tryExcept => true
  | _ => false

/-- An expression built only from literals, names and applications of
library attributes, calls and operators: no lambda, i.e. no function
original to the repository. -/
def Expr.isPassThrough : Expr → Bool
  | .slit _ | .nlit _ | .pynone | .pybool _ | .name _ | .enil => true
  | .econs e rest => e.isPassThrough && rest.isPassThrough
  | .tup2 a b => a.isPassThrough && b.isPassThrough
  | .kw _ e => e.isPassThrough
  | .call f a => f.isPassThrough && a.isPassThrough
  | .attr e _ => e.isPassThrough
  | .binop _ l r => l.isPassThrough && r.isPassThrough
  | .lambdaE _ _ => false

/-- A statement that is a direct pass-through to external libraries: an
import, a display-option magic line, or a binding/expression/attribute
assignment whose expression only applies library APIs to literals and
names. -/
def Stmt.isPassThrough : Stmt → Bool
  | .importLib _ _ | .importFrom _ _ | .magic _ => true
  | .assign _ e => e.isPassThrough
  | .attrAssign _ _ e => e.isPassThrough
  | .exprStmt e => e.isPassThrough
  | _ => false

/-- The names a statement binds in the notebook namespace. -/
def Stmt.bindsOf : Stmt → List String
  | .importLib _ a => [a]
  | .importFrom _ ns => ns
  | .assign x _ => [x]
  | _ => []

/-- The free names an expression reads. -/
def Expr.usedNames : Expr → List String
  | .slit _ | .nlit _ | .pynone | .pybool _ | .enil => []
  | .name x => [x]
  | .econs e rest => e.usedNames ++ rest.usedNames
  | .tup2 a b => a.usedNames ++ b.usedNames
  | .kw _ e => e.usedNames
  | .call f a => f.usedNames ++ a.usedNames
  | .attr e _ => e.usedNames
  | .binop _ l r => l.usedNames ++ r.usedNames
  | .lambdaE ps b => (b.usedNames).filter (fun n => !(ps.contains n))

/-- The names a statement reads. -/
def Stmt.usedNames : Stmt → List String
  | .assign _ e => e.usedNames
  | .attrAssign x _ e => x :: e.usedNames
  | .exprStmt e => e.usedNames
  | _ => []

/-- Python builtins the notebooks use. -/
def pyBuiltins : List String := ["print", "len", "list", "range"]

/-- Sequential scoping check: every name a statement reads was bound by an
earlier statement of the same notebook or is a builtin. -/
def wellScopedFrom (bound : List String) : List Stmt → Bool
  | [] => true
  | s :: rest =>
      (s.usedNames.all (fun n => bound.contains n || pyBuiltins.contains n)) &&
      wellScopedFrom (s.bindsOf ++ bound) rest

/-- Index of the first statement binding `x` (the list's length if none). -/
def firstBindIdx (nbs : List Stmt) (x : String) : Nat :=
  nbs.findIdx (fun s => s.bindsOf.contains x)

/-- `x` is bound by some statement, and strictly before any statement binding `y`. -/
def bindsBefore (nbs : List Stmt) (x y : String) : Bool :=
  nbs.any (fun s => s.bindsOf.contains x) &&
  decide (firstBindIdx nbs x < firstBindIdx nbs y)

/-- File paths passed as literal arguments to the file-reading library
calls `read_csv` and `read_parquet`. -/
def Expr.readPaths : Expr → List String
  | .econs e rest => e.readPaths ++ rest.readPaths
  | .tup2 a b => a.readPaths ++ b.readPaths
  | .kw _ e => e.readPaths
  | .attr e _ => e.readPaths
  | .binop _ l r => l.readPaths ++ r.readPaths
  | .lambdaE _ b => b.readPaths
  | .call f a =>
      let inner := f.readPaths ++ a.readPaths
      match f, a with
      | .attr _ m, .econs (.slit p) _ =>
          if m = "read_csv" || m = "read_parquet" then inner ++ [p] else inner
      | _, _ => inner
  | _ => []

/-- File paths a statement reads. -/
def Stmt.readPaths : Stmt → List String
  | .assign _ e => e.readPaths
  | .attrAssign _ _ e => e.readPaths
  | .exprStmt e => e.readPaths
  | _ => []

/-- All file paths read across a list of statements. -/
def allReadPaths (nbs : List Stmt) : List String :=
  (nbs.map Stmt.readPaths).join

/-- The path is under the sample-data directory `../data/`. -/
def underDataDir (p : String) : Bool :=
  decide (p.data.take 8 = ("../data/").data)

/-- Input channels other than files and library APIs: raw file handles,
standard input, sockets, environment, HTTP fetches done by the notebook
itself.  None of these names is ever called. -/
def otherChannelFns : List String :=
  ["open", "input", "socket", "urlopen", "get", "getenv", "stdin"]

/-- Function and method names applied anywhere inside an expression. -/
def Expr.calledFns : Expr → List String
  | .econs e rest => e.calledFns ++ rest.calledFns
  | .tup2 a b => a.calledFns ++ b.calledFns
  | .kw _ e => e.calledFns
  | .attr e _ => e.calledFns
  | .binop _ l r => l.calledFns ++ r.calledFns
  | .lambdaE _ b => b.calledFns
  | .call f a =>
      let inner := f.calledFns ++ a.calledFns
      match f with
      | .attr _ m => m :: inner
      | .name g => g :: inner
      | _ => inner
  | _ => []

/-- Function and method names a statement applies. -/
def Stmt.calledFns : Stmt → List String
  | .assign _ e => e.calledFns
  | .attrAssign _ _ e => e.calledFns
  | .exprStmt e => e.calledFns
  | _ => []

/-- All function and method names applied across a list of statements. -/
def allCalledFns (nbs : List Stmt) : List String :=
  (nbs.map Stmt.calledFns).join

/-- The modules a list of statements imports. -/
def importedMods (nbs : List Stmt) : List String :=
  (nbs.map (fun s => match s with
    | .importLib m _ => [m]
    | .importFrom m _ => [m]
    | _ => [])).join

/-- Python's concurrency-related modules: none is imported. -/
def concurrencyMods : List String :=
  ["threading", "multiprocessing", "asyncio", "concurrent.futures", "_thread", "queue"]

/-- Thread/process/lock creation and synchronisation primitives: none is called. -/
def concurrencyFns : List String :=
  ["Thread", "Process", "Lock", "RLock", "Semaphore", "acquire", "release",
   "start", "join", "wait", "notify", "submit", "Pool", "fork"]

/-- The attribute-assignment statements of the transcription. -/
def attrAssigns (nbs : List Stmt) : List Stmt :=
  nbs.filter (fun s => match s with
    | .attrAssign _ _ _ => true
    | _ => false)

/-! ## An evaluator for the notebooks, parametrised by a library oracle

The notebooks delegate every computation to external libraries.  The
evaluator models a run of a notebook: imports and literals are pure, and
every library application is a call to an `Oracle` that may return a value
or raise an exception (modelled as `Except.error`).  No construct of the
language fragment catches an error, so an exception raised by any library
call propagates to the result of the run. -/

/-- A runtime value of a notebook run. -/
inductive Value where
  | vstr (s : String)
  | vint (n : Int)
  | vnone
  | vbool (b : Bool)
  | vlib (modName : String)
  | vlist (vs : List Value)
  | vtup (a b : Value)
  | vkw (k : String) (v : Value)
  | vobj (tag : String) (fields : List Value)

/-- The external libraries: a named call on evaluated arguments either
returns a value or raises an exception. -/
abbrev Oracle := String → List Value → Except String Value

/-- The notebook namespace. -/
abbrev Env := List (String × Value)

/-- Look a name up in the namespace. -/
def lookupEnv (env : Env) (x : String) : Option Value :=
  match env with
  | [] => none
  | (y, v) :: rest => if y = x then some v else lookupEnv rest x

/-- Evaluate an expression.  A call whose function part is an attribute
`recv.m` calls the oracle on `m` with the receiver prepended; a call on an
imported name calls the oracle on that name.  Every step threads
`Except`: an error from a subterm is returned unchanged. -/
def evalExpr (o : Oracle) (env : Env) : Expr → Except String Value
  | .slit s => .ok (.vstr s)
  | .nlit n => .ok (.vint n)
  | .pynone => .ok .vnone
  | .pybool b => .ok (.vbool b)
  | .name x =>
      match lookupEnv env x with
      | some v => .ok v
      | none => if pyBuiltins.contains x then .ok (.vlib x) else .error ("NameError: " ++ x)
  | .enil => .ok (.vlist [])
  | .econs e rest =>
      match evalExpr o env e with
      | .error err => .error err
      | .ok v =>
          match evalExpr o env rest with
          | .error err => .error err
          | .ok (.vlist vs) => .ok (.vlist (v :: vs))
          | .ok _ => .error "TypeError: malformed list"
  | .tup2 a b =>
      match evalExpr o env a with
      | .error err => .error err
      | .ok va =>
          match evalExpr o env b with
          | .error err => .error err
          | .ok vb => .ok (.vtup va vb)
  | .kw k e =>
      match evalExpr o env e with
      | .error err => .error err
      | .ok v => .ok (.vkw k v)
  | .call (.attr recv m) a =>
      match evalExpr o env a with
      | .error err => .error err
      | .ok (.vlist vs) =>
          match evalExpr o env recv with
          | .error err => .error err
          | .ok vr => o m (vr :: vs)
      | .ok _ => .error "TypeError: malformed arguments"
  | .call (.name g) a =>
      match evalExpr o env a with
      | .error err => .error err
      | .ok (.vlist vs) =>
          match lookupEnv env g with
          | some v => o g (v :: vs)
          | none =>
              if pyBuiltins.contains g then o g vs
              else .error ("NameError: " ++ g)
      | .ok _ => .error "TypeError: malformed arguments"
  | .call f a =>
      match evalExpr o env a with
      | .error err => .error err
      | .ok (.vlist vs) =>
          match evalExpr o env f with
          | .error err => .error err
          | .ok vf => o "call" (vf :: vs)
      | .ok _ => .error "TypeError: malformed arguments"
  | .attr e a =>
      match evalExpr o env e with
      | .error err => .error err
      | .ok v => o "getattr" [v, .vstr a]
  | .binop op l r =>
      match evalExpr o env l with
      | .error err => .error err
      | .ok vl =>
          match evalExpr o env r with
          | .error err => .error err
          | .ok vr => o ("binop " ++ op) [vl, vr]
  | .lambdaE _ _ => .error "unmodelled: lambda"

/-- Execute one statement, producing the next namespace.  Imports and
magics are pure; assignments bind the evaluated value; an attribute
assignment rebinds the target to a tagged object holding the old value and
the assigned one; the statement forms the notebooks never use are not
modelled. -/
def evalStmt (o : Oracle) (env : Env) : Stmt → Except String Env
  | .importLib m a => .ok ((a, .vlib m) :: env)
  | .importFrom m ns => .ok ((ns.map (fun x => (x, Value.vlib (m ++ "." ++ x)))) ++ env)
  | .assign x e =>
      match evalExpr o env e with
      | .error err => .error err
      | .ok v => .ok ((x, v) :: env)
  | .attrAssign x a e =>
      match evalExpr o env e with
      | .error err => .error err
      | .ok v =>
          match lookupEnv env x with
          | some old => .ok ((x, .vobj ("setattr " ++ a) [old, v]) :: env)
          | none => .error ("NameError: " ++ x)
  | .exprStmt e =>
      match evalExpr o env e with
      | .error err => .error err
      | .ok _ => .ok env
  | .magic _ => .ok env
  | _ => .error "unmodelled statement form"

/-- Run a list of statements from a namespace: top to bottom, each
exactly once, stopping at the first uncaught exception. -/
def runStmts (o : Oracle) (env : Env) : List Stmt → Except String Env
  | [] => .ok env
  | s :: rest =>
      match evalStmt o env s with
      | .error err => .error err
      | .ok env2 => runStmts o env2 rest

/-! ## Part 2: a model of the HoloViews data structures the notebooks drive

The data structures (dataframes, dimensioned datasets, elements) are owned
by the external libraries, whose sources are not part of this repository;
the definitions below are modelled from the spec and from the notebooks'
own descriptions of the library calls they make. -/

/-- A cell value of a tabular dataset: a string or a number
(library floats modelled as rationals). -/
inductive CellV where
  | s (v : String)
  | q (v : ℚ)
deriving DecidableEq

/-- A row of tidy tabular data: column name to cell value. -/
abbrev Row := List (String × CellV)

/-- The value of column `c` in row `r`. -/
def getCol (r : Row) (c : String) : Option CellV :=
  match r with
  | [] => none
  | (c2, v) :: rest => if c2 = c then some v else getCol rest c

/-- Modelled from the spec: a HoloViews dimension, an independent (key) or
dependent (value) variable with a display label. -/
structure Dim where
  name : String
  label : String
deriving DecidableEq

/-- Modelled from the spec: a dask dataframe, rows of tidy data plus a
flag recording whether `persist` has materialised it in memory. -/
structure DFrame where
  rows : List Row
  persisted : Bool
deriving DecidableEq

/-- Modelled from the spec: `DataFrame.persist` materialises the frame;
the tabular contents are unchanged. -/
def DFrame.persist (f : DFrame) : DFrame :=
  { rows := f.rows, persisted := true }

/-- Modelled from the spec: `hv.Dataset`, tabular data with declared key
dimensions (independent variables) and value dimensions (dependent
variables). -/
structure HDataset where
  kdims : List Dim
  vdims : List Dim
  rows : List Row
deriving DecidableEq

/-- Modelled from the spec: a HoloViews element (Curve, Bars, BoxWhisker,
Points, ...): a typed wrapper with declared dimensions, group/label
metadata and underlying data. -/
structure HElement where
  etype : String
  kdims : List Dim
  vdims : List Dim
  group : String
  label : String
  data : DFrame
deriving DecidableEq

/-- Replace the element's underlying data, as the notebook's
`selected.data = ...` assignment does: every other attribute is kept. -/
def HElement.setData (e : HElement) (df : DFrame) : HElement :=
  { e with data := df }

/-- Modelled from the spec: an aggregation or spread function passed to
`aggregate` (np.mean, np.std, ss.sem): a named reduction of the numbers
of a group, owned by the external library. -/
structure AggFn where
  name : String
  fn : List ℚ → ℚ

/-- Modelled from the spec: `np.mean`, the arithmetic mean. -/
def npMean : AggFn :=
  { name := "mean", fn := fun xs => xs.sum / (xs.length : ℚ) }

/-- Keep the last occurrence of each value. -/
def dedupV : List CellV → List CellV
  | [] => []
  | v :: rest => if rest.contains v then dedupV rest else v :: dedupV rest

/-- The distinct values of column `key` across the rows. -/
def keyVals (rows : List Row) (key : String) : List CellV :=
  dedupV (rows.filterMap (fun r => getCol r key))

/-- The numbers found in column `c` of the rows whose `key` column holds
`kv`: the group of `kv`. -/
def groupNums (rows : List Row) (key : String) (kv : CellV) (c : String) : List ℚ :=
  ((rows.filter (fun r => decide (getCol r key = some kv))).filterMap (fun r =>
    match getCol r c with
    | some (CellV.q x) => some x
    | _ => none))

/-- The spread dimension `aggregate` adds for value dimension `v`:
its name is the value dimension's name, an underscore, and the spread
function's name (growth with np.std gives growth_std). -/
def spreadDim (sp : AggFn) (v : Dim) : Dim :=
  { name := v.name ++ "_" ++ sp.name, label := v.label ++ " " ++ sp.name }

/-- The aggregated row for one value `kv` of the key: the key column, then
each value dimension reduced by `f` over the group of `kv`, then each
spread column holding `sp` of the same group. -/
def aggRow (d : HDataset) (key : String) (f sp : AggFn) (kv : CellV) : Row :=
  (key, kv) ::
    (d.vdims.map (fun v => (v.name, CellV.q (f.fn (groupNums d.rows key kv v.name)))) ++
     d.vdims.map (fun v => ((spreadDim sp v).name, CellV.q (sp.fn (groupNums d.rows key kv v.name)))))

/-- Modelled from the spec: `Dataset.aggregate(key, function, spreadfn)`
groups the rows by the key dimension and reduces each value dimension of
each group with `function`, adding one spread column per value dimension
computed with `spreadfn`. -/
def HDataset.aggregate (d : HDataset) (key : String) (f sp : AggFn) : HDataset :=
  { kdims := d.kdims.filter (fun dm => decide (dm.name = key))
  , vdims := d.vdims ++ d.vdims.map (spreadDim sp)
  , rows := (keyVals d.rows key).map (aggRow d key f sp) }

/-- Modelled from the spec: `redim.label(...)` gives a dimension whose
name is listed a new display label; names and all else are unchanged. -/
def Dim.relabel (u : List (String × String)) (dm : Dim) : Dim :=
  match u.find? (fun p => decide (p.1 = dm.name)) with
  | some p => { dm with label := p.2 }
  | none => dm

/-- Modelled from the spec: `Dataset.redim.label(...)` applies the label
updates to the key and value dimensions; the rows are untouched. -/
def HDataset.redimLabel (d : HDataset) (u : List (String × String)) : HDataset :=
  { d with kdims := d.kdims.map (Dim.relabel u), vdims := d.vdims.map (Dim.relabel u) }

/-- The label updates of notebook 05's `macro.redim.label(...)` call. -/
def macroLabelUpdates : List (String × String) :=
  [("growth", "GDP Growth"), ("unem", "Unemployment"), ("year", "Year"), ("country", "Country")]

/-- The declared dimension of name `n`, with its label; an undeclared name
becomes a fresh dimension labelled by itself. -/
def lookupDim (d : HDataset) (n : String) : Dim :=
  match (d.kdims ++ d.vdims).find? (fun dm => decide (dm.name = n)) with
  | some dm => dm
  | none => { name := n, label := n }

/-- Project a row onto the named columns. -/
def projectRow (cols : List String) (r : Row) : Row :=
  cols.filterMap (fun c => (getCol r c).map (fun v => (c, v)))

/-- Modelled from the spec: constructing an element directly from a
dataset, as `hv.BoxWhisker(macro, kdims=[...], vdims=[...])` does: the
named dimensions are looked up in the dataset (keeping their labels) and
the data is the dataset's rows on those columns. -/
def mkEl (etype : String) (d : HDataset) (kd vd : List String) : HElement :=
  { etype := etype
  , kdims := kd.map (lookupDim d)
  , vdims := vd.map (lookupDim d)
  , group := etype
  , label := ""
  , data := { rows := d.rows.map (projectRow (kd ++ vd)), persisted := false } }

/-- Group rows by the distinct value combinations of the named columns:
no columns means a single group of all rows. -/
def groupCombos : List String → List Row → List (List CellV × List Row)
  | [], rows => [([], rows)]
  | g :: rest, rows =>
      (keyVals rows g).foldr (fun kv acc =>
        ((groupCombos rest (rows.filter (fun r => decide (getCol r g = some kv)))).map
          (fun p => (kv :: p.1, p.2))) ++ acc) []

/-- Modelled from the spec: `Dataset.to(element, kdims, vdims, groupby)`
groups the data by the groupby dimensions and converts each group to an
element; an empty groupby list yields the single element of all rows. -/
def HDataset.toConv (d : HDataset) (etype : String) (kd vd gs : List String) :
    List (List CellV × HElement) :=
  (groupCombos gs d.rows).map (fun p => (p.1, mkEl etype { d with rows := p.2 } kd vd))

/-- Modelled from the spec: `Element.select(col, lo, hi)` keeps the rows
whose numeric column `col` lies in the half-open selection (None bounds
are absent). -/
def HElement.select (e : HElement) (col : String) (lo hi : Option ℚ) : HElement :=
  { e with data := { rows := e.data.rows.filter (fun r =>
      match getCol r col with
      | some (CellV.q x) =>
          (match lo with | some a => decide (a ≤ x) | none => true) &&
          (match hi with | some b => decide (x ≤ b) | none => true)
      | _ => false), persisted := e.data.persisted } }

/-- The state of notebook 09 around the `selected.data` assignment: the
dask dataframe and the two elements built from it. -/
structure NB09Env where
  ddf : DFrame
  points : HElement
  selected : HElement
deriving DecidableEq

/-- The embedding of the statement `selected.data = selected.data.persist()`:
the only in-place mutation in the notebooks, acting on the state. -/
def persistSelected (st : NB09Env) : NB09Env :=
  { st with selected := st.selected.setData (st.selected.data.persist) }

/-! ## Extracting the `.to` conversions and their groupby arguments -/

/-- The base variable a chain of attribute accesses and calls starts from. -/
def Expr.baseName : Expr → String
  | .name x => x
  | .attr e _ => e.baseName
  | .call f _ => f.baseName
  | _ => ""

/-- Look up a keyword argument in an argument chain. -/
def kwArg : Expr → String → Option Expr
  | .econs (.kw k v) rest, key => if k = key then some v else kwArg rest key
  | .econs _ rest, key => kwArg rest key
  | _, _ => none

/-- The dimension-name strings of a groupby argument: a single string or a
list of strings. -/
def gbStrings : Expr → List String
  | .slit s => [s]
  | .econs e rest => gbStrings e ++ gbStrings rest
  | _ => []

/-- Every `.to` conversion in an expression that passes a groupby
argument, as (receiver base variable, groupby dimension names). -/
def Expr.toGroupbys : Expr → List (String × List String)
  | .econs e rest => e.toGroupbys ++ rest.toGroupbys
  | .tup2 a b => a.toGroupbys ++ b.toGroupbys
  | .kw _ e => e.toGroupbys
  | .attr e _ => e.toGroupbys
  | .binop _ l r => l.toGroupbys ++ r.toGroupbys
  | .lambdaE _ b => b.toGroupbys
  | .call (.attr recv m) a =>
      let inner := recv.toGroupbys ++ a.toGroupbys
      if m = "to" then
        match kwArg a "groupby" with
        | some gb => inner ++ [(recv.baseName, gbStrings gb)]
        | none => inner
      else inner
  | .call f a => f.toGroupbys ++ a.toGroupbys
  | _ => []

/-- The `.to` conversions with groupby arguments in a statement. -/
def Stmt.toGroupbys : Stmt → List (String × List String)
  | .assign _ e => e.toGroupbys
  | .attrAssign _ _ e => e.toGroupbys
  | .exprStmt e => e.toGroupbys
  | _ => []

/-- All `.to` conversions with groupby arguments across the statements. -/
def nbToGroupbys (nbs : List Stmt) : List (String × List String) :=
  (nbs.map Stmt.toGroupbys).join

/-- The key dimensions declared for the macro dataset in notebook 05:
`hv.Dataset(macro_df, kdims=['country', 'year'])`. -/
def macroKdimNames : List String := ["country", "year"]

/-- Modelled from the spec: the value dimensions of the macro dataset
named by the notebook (the csv's remaining columns are inferred as value
dimensions; the notebook works with growth and unem). -/
def macroVdimNames : List String := ["growth", "unem"]

/-- Modelled from the spec: the columns of the taxi dataframe the
notebook names; `hv.Dataset(ddf)` with no declared kdims treats the
columns as dimensions, so these are the taxi dataset's dimensions. -/
def taxiDimNames : List String :=
  ["dropoff_x", "dropoff_y", "pickup_x", "pickup_y", "dropoff_hour",
   "fare_amount", "tip_amount"]

/-- The key dimensions of the dataset a `.to` receiver names. -/
def kdimsOfBase (base : String) : List String :=
  if base = "macro" then macroKdimNames
  else if base = "taxi_ds" then taxiDimNames
  else []

/-- The value dimensions of the dataset a `.to` receiver names. -/
def vdimsOfBase (base : String) : List String :=
  if base = "macro" then macroVdimNames
  else []

/-- Every groupby dimension passed to a `.to` conversion names a key
dimension of the receiving dataset and no value dimension. -/
def groupbyOnKdims (nbs : List Stmt) : Bool :=
  (nbToGroupbys nbs).all (fun p =>
    p.2.all (fun g => (kdimsOfBase p.1).contains g && !((vdimsOfBase p.1).contains g)))

/-! ## Concrete inputs for witnesses -/

/-- An oracle whose file reads fail and whose other calls succeed. -/
def failReadsOracle : Oracle := fun f vs =>
  if f = "read_csv" then .error "FileNotFoundError: ../data/macro.csv"
  else if f = "read_parquet" then .error "FileNotFoundError: ../data/nyc_taxi_hours.parq/"
  else .ok (Value.vobj f vs)

/-- A small concrete dataset shaped like the macro dataset: key dimensions
country and year, value dimensions growth and unem. -/
def macroToy : HDataset :=
  { kdims := [{ name := "country", label := "Country" }, { name := "year", label := "Year" }]
  , vdims := [{ name := "growth", label := "GDP Growth" }, { name := "unem", label := "Unemployment" }]
  , rows :=
      [[("country", CellV.s "US"), ("year", CellV.q 1980), ("growth", CellV.q 3), ("unem", CellV.q 6)],
       [("country", CellV.s "US"), ("year", CellV.q 1981), ("growth", CellV.q 1), ("unem", CellV.q 7)],
       [("country", CellV.s "UK"), ("year", CellV.q 1980), ("growth", CellV.q 2), ("unem", CellV.q 5)]] }

/-- A concrete stand-in for the external np.std spread function: a named
reduction called std. -/
def stdToy : AggFn :=
  { name := "std", fn := fun xs => (xs.map (fun x => x * x)).sum / (xs.length : ℚ) }

/-- A concrete stand-in for the external ss.sem spread function: a named
reduction called sem. -/
def semToy : AggFn :=
  { name := "sem", fn := fun xs => xs.sum / ((xs.length : ℚ) + 1) }

/-! ## Helper lemmas about column lookup -/

theorem getCol_append_left (r1 r2 : Row) (c : String) (x : CellV)
    (h : getCol r1 c = some x) : getCol (r1 ++ r2) c = some x := by
  induction r1 with
  | nil => simp [getCol] at h
  | cons p rest ih =>
    rcases p with ⟨c2, v⟩
    simp only [List.cons_append, getCol] at h ⊢
    by_cases hc : c2 = c
    · simpa [hc] using h
    · rw [if_neg hc] at h ⊢
      exact ih h

theorem getCol_append_right (r1 r2 : Row) (c : String)
    (h : ∀ p ∈ r1, p.1 ≠ c) : getCol (r1 ++ r2) c = getCol r2 c := by
  induction r1 with
  | nil => rfl
  | cons p rest ih =>
    rcases p with ⟨c2, v⟩
    have hne : c2 ≠ c := h (c2, v) (List.mem_cons_self _ _)
    simp only [List.cons_append, getCol, if_neg hne]
    exact ih (fun q hq => h q (List.mem_cons_of_mem _ hq))

theorem getCol_map_eq (kf : Dim → String) (g : Dim → CellV) (l : List Dim) (v : Dim)
    (hv : v ∈ l) (hnd : (l.map kf).Nodup) :
    getCol (l.map (fun w => (kf w, g w))) (kf v) = some (g v) := by
  induction l with
  | nil => cases hv
  | cons w ws ih =>
    simp only [List.map_cons, getCol]
    rcases List.mem_cons.mp hv with h | hmem
    · subst h
      rw [if_pos rfl]
    · by_cases he : kf w = kf v
      · exfalso
        have hm : kf v ∈ ws.map kf := List.mem_map_of_mem kf hmem
        rw [← he] at hm
        exact (List.nodup_cons.mp (by simpa using hnd)).1 hm
      · rw [if_neg he]
        exact ih hmem (List.nodup_cons.mp (by simpa using hnd)).2

theorem lookupDim_name (d : HDataset) (n : String) : (lookupDim d n).name = n := by
  unfold lookupDim
  cases h : (d.kdims ++ d.vdims).find? (fun dm => decide (dm.name = n)) with
  | none => rfl
  | some dm =>
    have hp := List.find?_some h
    exact of_decide_eq_true hp

theorem Dim.relabel_name (u : List (String × String)) (dm : Dim) :
    (Dim.relabel u dm).name = dm.name := by
  unfold Dim.relabel
  cases u.find? (fun p => decide (p.1 = dm.name)) <;> rfl

/-! ## The claims -/

/-- C1: every statement of both notebooks is a direct pass-through to the
external libraries: it imports a library, is a display-option magic line,
binds a literal, or applies library functions/attributes/operators to
literals and previously bound names; no statement defines a function,
class, loop, conditional or try/except, and every name applied to was
bound by an earlier statement (or is a builtin). -/
theorem claim1_pass_through_statements :
    (nb05 ++ nb09).all Stmt.isPassThrough = true ∧
    (nb05 ++ nb09).all (fun s => !(s.isOrigControl)) = true ∧
    wellScopedFrom [] nb05 = true ∧ wellScopedFrom [] nb09 = true := by
  refine ⟨by decide, by decide, by decide, by decide⟩

/-- C2: the notebooks catch no failure: they contain no try/except, and
for any library oracle under which `hv.extension` succeeds but
`pd.read_csv('../data/macro.csv')` raises `e1` (resp.
`dd.read_parquet('../data/nyc_taxi_hours.parq/')` raises `e2`), the run of
notebook 05 (resp. 09) ends with exactly that library error, unchanged. -/
theorem claim2_errors_propagate_uncaught (o : Oracle) (v : Value) (e1 e2 : String)
    (h1 : o "extension" [Value.vlib "holoviews", Value.vstr "bokeh"] = Except.ok v)
    (h2 : o "read_csv" [Value.vlib "pandas", Value.vstr "../data/macro.csv"] = Except.error e1)
    (h3 : o "read_parquet" [Value.vlib "dask.dataframe",
      Value.vstr "../data/nyc_taxi_hours.parq/"] = Except.error e2) :
    runStmts o [] nb05 = Except.error e1 ∧
    runStmts o [] nb09 = Except.error e2 ∧
    (nb05 ++ nb09).all (fun s => !(s.isTryExcept)) = true := by
  refine ⟨?_, ?_, by decide⟩
  · simp [nb05, runStmts, evalStmt, evalExpr, mcall, fcall, listE, lookupEnv, h1, h2]
  · simp [nb09, runStmts, evalStmt, evalExpr, mcall, fcall, listE, lookupEnv, h1, h3]

/-- Witness for C2: under the concrete oracle whose file reads fail with a
FileNotFoundError, each notebook run surfaces exactly that error. -/
theorem claim2_witness_failing_reads :
    runStmts failReadsOracle [] nb05 =
      Except.error "FileNotFoundError: ../data/macro.csv" ∧
    runStmts failReadsOracle [] nb09 =
      Except.error "FileNotFoundError: ../data/nyc_taxi_hours.parq/" ∧
    (nb05 ++ nb09).all (fun s => !(s.isTryExcept)) = true :=
  claim2_errors_propagate_uncaught failReadsOracle
    (Value.vobj "extension" [Value.vlib "holoviews", Value.vstr "bokeh"])
    "FileNotFoundError: ../data/macro.csv"
    "FileNotFoundError: ../data/nyc_taxi_hours.parq/" (by rfl) (by rfl) (by rfl)

/-- C3: the only data inputs are the files under ../data/ and the library
APIs: the file paths the notebooks read are exactly
'../data/macro.csv' and '../data/nyc_taxi_hours.parq/', every read path is
under ../data/, and no other input channel (open, input, socket, urlopen,
environment, stdin) is ever called. -/
theorem claim3_inputs_only_data_files_and_library_calls :
    allReadPaths (nb05 ++ nb09) = ["../data/macro.csv", "../data/nyc_taxi_hours.parq/"] ∧
    (allReadPaths (nb05 ++ nb09)).all underDataDir = true ∧
    (allCalledFns (nb05 ++ nb09)).all (fun f => !(otherChannelFns.contains f)) = true := by
  refine ⟨by decide, by decide, by decide⟩

/-- C4: each notebook is a linear script: no loop, conditional or other
control flow, every name read by a statement was bound strictly earlier in
the same notebook (or is a builtin), and the bindings appear in the
claimed order (macro_df before macro before curves/bars/agg in notebook
05; ddf before points before selected, and taxi_ds before grouped, in
notebook 09). -/
theorem claim4_linear_script_order :
    wellScopedFrom [] nb05 = true ∧ wellScopedFrom [] nb09 = true ∧
    (nb05 ++ nb09).all (fun s => !(s.isOrigControl)) = true ∧
    bindsBefore nb05 "macro_df" "macro" = true ∧
    bindsBefore nb05 "macro" "curves" = true ∧
    bindsBefore nb05 "macro" "bars" = true ∧
    bindsBefore nb05 "macro" "agg" = true ∧
    bindsBefore nb09 "ddf" "points" = true ∧
    bindsBefore nb09 "points" "selected" = true ∧
    bindsBefore nb09 "ddf" "taxi_ds" = true ∧
    bindsBefore nb09 "taxi_ds" "grouped" = true := by
  refine ⟨by decide, by decide, by decide, by decide, by decide, by decide, by decide,
    by decide, by decide, by decide, by decide⟩

/-- C5: the notebooks use no concurrency of their own: no
threading/multiprocessing/asyncio module is imported and no
thread/process/lock creation or synchronisation function is ever called;
the parallel work appears only as calls into the external libraries
(persist, datashade), which the transcription does contain. -/
theorem claim5_no_concurrency_primitives :
    (importedMods (nb05 ++ nb09)).all (fun m => !(concurrencyMods.contains m)) = true ∧
    (allCalledFns (nb05 ++ nb09)).all (fun f => !(concurrencyFns.contains f)) = true ∧
    (allCalledFns nb09).contains "persist" = true ∧
    (allCalledFns nb09).contains "datashade" = true := by
  refine ⟨by decide, by decide, by decide, by decide⟩

/-- C6: `aggregate(key, function=np.mean, spreadfn)` reduces grouped data
to summary statistics: it yields one row per distinct key value, and that
row holds, for every value dimension v, the arithmetic mean of v over the
rows of that group, plus a spread column named v_<spreadfn> (growth_std
for np.std, growth_sem for ss.sem) holding the spread function of the same
group; the external spread function is an arbitrary named reduction. -/
theorem claim6_aggregate_mean_and_spread (d : HDataset) (key : String) (sp : AggFn)
    (kv : CellV) (v : Dim)
    (hkv : kv ∈ keyVals d.rows key) (hv : v ∈ d.vdims)
    (hk : key ∉ d.vdims.map Dim.name)
    (hnd : (d.vdims.map Dim.name).Nodup)
    (hnds : (d.vdims.map (fun w => (spreadDim sp w).name)).Nodup)
    (hsk : (spreadDim sp v).name ≠ key)
    (hsv : (spreadDim sp v).name ∉ d.vdims.map Dim.name) :
    (d.aggregate key npMean sp).rows.length = (keyVals d.rows key).length ∧
    ∃ r ∈ (d.aggregate key npMean sp).rows,
      getCol r key = some kv ∧
      getCol r v.name =
        some (CellV.q ((groupNums d.rows key kv v.name).sum /
          ((groupNums d.rows key kv v.name).length : ℚ))) ∧
      getCol r ((spreadDim sp v).name) =
        some (CellV.q (sp.fn (groupNums d.rows key kv v.name))) := by
  constructor
  · simp [HDataset.aggregate]
  refine ⟨aggRow d key npMean sp kv, List.mem_map_of_mem _ hkv, ?_, ?_, ?_⟩
  · simp [aggRow, getCol]
  · have hne : key ≠ v.name := fun he => hk (by rw [he]; exact List.mem_map_of_mem _ hv)
    show getCol ((key, kv) :: _) v.name = _
    rw [getCol, if_neg hne]
    exact getCol_append_left _ _ _ _ (getCol_map_eq Dim.name _ d.vdims v hv hnd)
  · have hne2 : key ≠ (spreadDim sp v).name := fun he => hsk he.symm
    show getCol ((key, kv) :: _) ((spreadDim sp v).name) = _
    rw [getCol, if_neg hne2]
    rw [getCol_append_right]
    · exact getCol_map_eq (fun w => (spreadDim sp w).name) _ d.vdims v hv hnds
    · intro p hp
      rcases List.mem_map.mp hp with ⟨w, hw, rfl⟩
      intro he
      exact hsv (by rw [← he]; exact List.mem_map_of_mem _ hw)

/-- Witness for C6: on the concrete toy macro dataset, aggregating by year
(with the std-named spread) and by country (with the sem-named spread)
produces rows holding the group mean of growth and the spread columns
growth_std and growth_sem. -/
theorem claim6_witness_toy_macro :
    (∃ r ∈ (macroToy.aggregate "year" npMean stdToy).rows,
      getCol r "year" = some (CellV.q 1980) ∧
      getCol r "growth" =
        some (CellV.q ((groupNums macroToy.rows "year" (CellV.q 1980) "growth").sum /
          ((groupNums macroToy.rows "year" (CellV.q 1980) "growth").length : ℚ))) ∧
      getCol r "growth_std" =
        some (CellV.q (stdToy.fn (groupNums macroToy.rows "year" (CellV.q 1980) "growth")))) ∧
    (∃ r ∈ (macroToy.aggregate "country" npMean semToy).rows,
      getCol r "country" = some (CellV.s "US") ∧
      getCol r "growth" =
        some (CellV.q ((groupNums macroToy.rows "country" (CellV.s "US") "growth").sum /
          ((groupNums macroToy.rows "country" (CellV.s "US") "growth").length : ℚ))) ∧
      getCol r "growth_sem" =
        some (CellV.q (semToy.fn (groupNums macroToy.rows "country" (CellV.s "US") "growth")))) :=
  ⟨(claim6_aggregate_mean_and_spread macroToy "year" stdToy (CellV.q 1980)
      { name := "growth", label := "GDP Growth" }
      (by decide) (by decide) (by decide) (by decide) (by decide) (by decide) (by decide)).2,
   (claim6_aggregate_mean_and_spread macroToy "country" semToy (CellV.s "US")
      { name := "growth", label := "GDP Growth" }
      (by decide) (by decide) (by decide) (by decide) (by decide) (by decide) (by decide)).2⟩

/-- C7: every groupby argument passed to a `.to` conversion in the
notebooks names a key dimension of the receiving dataset and never a value
dimension: the conversions with groupby arguments are exactly
macro grouped by country, macro grouped by nothing (the BoxWhisker), and
taxi_ds grouped by dropoff_hour, and each named dimension is among the
receiver's declared key dimensions. -/
theorem claim7_groupby_on_key_dimensions :
    nbToGroupbys (nb05 ++ nb09) =
      [("macro", ["country"]), ("macro", []), ("taxi_ds", ["dropoff_hour"])] ∧
    groupbyOnKdims (nb05 ++ nb09) = true := by
  refine ⟨by decide, by decide⟩

/-- C8: the two BoxWhisker constructions of notebook 05 agree: for any
dataset, `to(BoxWhisker, 'country', 'growth', groupby=[])` yields exactly
the element `BoxWhisker(d, kdims=['country'], vdims=['growth'])` (same
element type, same data), whose key dimension is country and whose value
dimension is growth. -/
theorem claim8_boxwhisker_conversion_equivalence (d : HDataset) :
    d.toConv "BoxWhisker" ["country"] ["growth"] [] =
      [([], mkEl "BoxWhisker" d ["country"] ["growth"])] ∧
    (mkEl "BoxWhisker" d ["country"] ["growth"]).kdims.map Dim.name = ["country"] ∧
    (mkEl "BoxWhisker" d ["country"] ["growth"]).vdims.map Dim.name = ["growth"] ∧
    (mkEl "BoxWhisker" d ["country"] ["growth"]).etype = "BoxWhisker" := by
  refine ⟨rfl, ?_, ?_, rfl⟩
  · simp [mkEl, lookupDim_name]
  · simp [mkEl, lookupDim_name]

/-- C9: `selected.data = selected.data.persist()` is the only attribute
assignment in either notebook, and its embedding replaces only the data
attribute of selected: the element type, dimensions, group, label and the
tabular contents of the data are unchanged, the points element and the ddf
dataframe are untouched, and the data becomes persisted. -/
theorem claim9_persist_only_mutates_data :
    attrAssigns (nb05 ++ nb09) =
      [Stmt.attrAssign "selected" "data"
        (mcall (.attr (.name "selected") "data") "persist" [])] ∧
    ∀ st : NB09Env,
      (persistSelected st).points = st.points ∧
      (persistSelected st).ddf = st.ddf ∧
      (persistSelected st).selected.etype = st.selected.etype ∧
      (persistSelected st).selected.kdims = st.selected.kdims ∧
      (persistSelected st).selected.vdims = st.selected.vdims ∧
      (persistSelected st).selected.group = st.selected.group ∧
      (persistSelected st).selected.label = st.selected.label ∧
      (persistSelected st).selected.data.rows = st.selected.data.rows ∧
      (persistSelected st).selected.data.persisted = true := by
  refine ⟨by decide, fun st => ⟨rfl, rfl, rfl, rfl, rfl, rfl, rfl, rfl, rfl⟩⟩

/-- C10: `redim.label(growth='GDP Growth', unem='Unemployment',
year='Year', country='Country')` changes only display labels: for any
dataset the relabelled dataset has the same rows, the same key-dimension
names and the same value-dimension names (so the same split into key and
value dimensions), while a dimension named growth indeed gets the label
GDP Growth whatever its old label was. -/
theorem claim10_redim_label_frame (d : HDataset) :
    (d.redimLabel macroLabelUpdates).rows = d.rows ∧
    (d.redimLabel macroLabelUpdates).kdims.map Dim.name = d.kdims.map Dim.name ∧
    (d.redimLabel macroLabelUpdates).vdims.map Dim.name = d.vdims.map Dim.name ∧
    (∀ l, (Dim.relabel macroLabelUpdates { name := "growth", label := l }).label =
      "GDP Growth") := by
  refine ⟨rfl, ?_, ?_, fun l => rfl⟩
  · rw [HDataset.redimLabel, List.map_map]
    exact List.map_congr_left (fun a _ => Dim.relabel_name _ a)
  · rw [HDataset.redimLabel, List.map_map]
    exact List.map_congr_left (fun a _ => Dim.relabel_name _ a)
